import Mathlib

/-!
Verification development for the BananaDB multi-provider car-listing
parsing pipeline (`src/unnamed/part_000`).

The pipeline is shallowly embedded:
* JSON values (the output of `JSON.parse`) are the inductive `Json`;
  `JSON.parse` itself is a JavaScript builtin (an external collaborator),
  so the string-to-`Json` step is supplied by the environment as an
  `Except` value, and the normalizer's shape dispatch — the code that
  actually lives in this repository — is embedded as `parseAIResponseVal`.
* Remote calls (supabase RPCs, provider HTTP/SDK calls) are modelled by an
  environment record supplying each call's outcome, and the embedding
  additionally returns the trace of outbound calls it would issue, so
  that "fails before any network call" is the statement "the trace is empty".
* JavaScript exceptions are modelled with `Except`-style result types;
  `try/catch` blocks become matches on those results.
* JavaScript numbers are modelled as `Rat`. Every number produced by
  `JSON.parse` is a finite decimal, and all the arithmetic performed by
  this code is order comparison against small integer bounds, on which
  rationals and IEEE doubles agree.
* `new Date().getFullYear()` is modelled as an explicit `currentYear`
  parameter.
-/

namespace BananaDB

/-- A JSON value, as produced by `JSON.parse`. Objects are association
lists of fields (the parser yields unique keys). -/
inductive Json where
  | null : Json
  | bool (b : Bool) : Json
  | num (q : Rat) : Json
  | str (s : String) : Json
  | arr (elems : List Json) : Json
  | obj (fields : List (String × Json)) : Json

/-- JavaScript `String.prototype.trim`: strips whitespace from both
ends. Implemented over the string's character list (the byte-position
based `String.trim` of the core library computes the same function but
does not reduce inside the kernel). -/
def jsTrim (s : String) : String :=
  ⟨((s.data.dropWhile Char.isWhitespace).reverse.dropWhile Char.isWhitespace).reverse⟩

/-- JavaScript `String.prototype.toLowerCase`, character by character
(all the strings this code lower-cases and compares are ASCII, where
this agrees with JS). -/
def jsToLower (s : String) : String :=
  ⟨s.data.map Char.toLower⟩

/-- JavaScript truthiness of a JSON value: `null`, `false`, `0` and `""`
are falsy; arrays and objects (even empty ones) are truthy. -/
def jsTruthy : Json → Bool
  | .null => false
  | .bool b => b
  | .num q => !(decide (q = 0))
  | .str s => s != ""
  | .arr _ => true
  | .obj _ => true

/-- The JavaScript `typeof` operator on a JSON value. Note that
`typeof null` and `typeof` of an array are both `"object"`. -/
def jsTypeof : Json → String
  | .null => "object"
  | .bool _ => "boolean"
  | .num _ => "number"
  | .str _ => "string"
  | .arr _ => "object"
  | .obj _ => "object"

/-- Property read `v.k` on a non-null JSON value: a field lookup on an
object, `undefined` (here `none`) on anything else (a JSON array has no
named properties). Reading a property of `null` throws in JavaScript and
is handled separately at the call sites that can reach it. -/
def getProp : Json → String → Option Json
  | .obj fs, k => fs.lookup k
  | _, _ => none

/-- Property assignment `v.k = x` on an object (the key is already
present at every call site); other values pass through unchanged. -/
def setProp (l : Json) (k : String) (v : Json) : Json :=
  match l with
  | .obj fs => .obj (fs.map (fun kv => if kv.1 = k then (k, v) else kv))
  | other => other

/-- Property deletion `delete v.k` on an object; other values pass
through unchanged. -/
def delProp (l : Json) (k : String) : Json :=
  match l with
  | .obj fs => .obj (fs.filter (fun kv => kv.1 != k))
  | other => other

/-- The provider enumeration. -/
inductive Provider where
  | gemini
  | deepseek
  | openrouter
deriving DecidableEq

/-- Every error the pipeline can surface, one constructor per `throw`
site of the source (constructors stand for the `Error` objects; the
messages are recorded in the doc comments of the functions that raise
them). -/
inductive Err where
  /-- `"No data provided"` — blank input to `parseCarListing`. -/
  | noData : Err
  /-- A supabase RPC returned an error, rethrown by `getSettings`. -/
  | rpcError (msg : String) : Err
  /-- `"Unknown AI provider: <tag>"` from `getSettings`. -/
  | unknownProvider (tag : String) : Err
  /-- `"<Provider> API key is required"` (raised both by `parseCarListing`
  and by the adapters themselves). -/
  | keyRequired (p : Provider) : Err
  /-- `"<Provider> prompt is required"` from `parseCarListing`. -/
  | promptRequired (p : Provider) : Err
  /-- Gemini SDK exception, rethrown unchanged. -/
  | sdkError (msg : String) : Err
  /-- Non-ok HTTP response: the provider error body's message when
  present, otherwise `"Failed to get response from <Provider>"`. -/
  | transportError (p : Provider) (msg : Option String) : Err
  /-- `"No content in <Provider> response"`. -/
  | noContent (p : Provider) : Err
  /-- `JSON.parse` threw; rethrown by `parseAIResponse` as
  `"Failed to parse AI response: <msg>"`. -/
  | parseFailed (msg : String) : Err
  /-- Reading `.listings` on `null` throws a `TypeError`, which
  `parseAIResponse`'s catch rethrows as
  `"Failed to parse AI response: <TypeError message>"`. -/
  | nullListingsAccess : Err
  /-- `"Invalid response format"`, rethrown by `parseAIResponse`'s catch
  as `"Failed to parse AI response: Invalid response format"`. -/
  | invalidFormat : Err
  /-- `"No valid listings found in the response"` from `parseCarListing`. -/
  | noValidListings : Err
deriving DecidableEq

/-- The shape-dispatch part of `parseAIResponse`, applied to the value
`JSON.parse` produced. Mirrors, in order:
`if (parsed.listings && Array.isArray(parsed.listings)) return parsed.listings;`
`else if (Array.isArray(parsed)) return parsed;`
`else if (typeof parsed === 'object') return [parsed];`
`throw new Error('Invalid response format');`
with the caveat that when `parsed` is `null`, the very first property
read `parsed.listings` throws a `TypeError` (caught by the surrounding
catch and rethrown wrapped), so `null` never reaches the final branches
even though `typeof null === 'object'`. An array value of the `listings`
field is always truthy (even `[]`), so the first branch fires exactly
when the field holds an array. -/
def parseAIResponseVal (j : Json) : Except Err (List Json) :=
  match j with
  | .null => .error .nullListingsAccess
  | _ =>
    match getProp j "listings" with
    | some (.arr xs) => .ok xs
    | _ =>
      match j with
      | .arr xs => .ok xs
      | .obj fs => .ok [.obj fs]
      | _ => .error .invalidFormat

/-- Full `parseAIResponse`: the `JSON.parse` outcome (supplied by the
environment, since the parser is a JS builtin) followed by the shape
dispatch; a parse exception is rethrown as a wrapped parse failure. -/
def parseAIResponseE (parsed : Except String Json) : Except Err (List Json) :=
  match parsed with
  | .error m => .error (.parseFailed m)
  | .ok j => parseAIResponseVal j

/-- Scalar JSON values: numbers, strings and booleans (not `null`,
arrays or objects). -/
def isScalar : Json → Bool
  | .num _ => true
  | .str _ => true
  | .bool _ => true
  | _ => false

/-- Required-field test for `make`/`model`:
`typeof v === 'string' && v.trim() !== ''` (the source tests the
negation and rejects). -/
def strFieldOk (v : Option Json) : Bool :=
  match v with
  | some (.str s) => jsTrim s != ""
  | _ => false

/-- Required-field test for `year`:
`typeof v === 'number' && !(v < 1900) && !(v > currentYear + 1)` where
`currentYear` is `new Date().getFullYear()`. -/
def yearFieldOk (currentYear : Int) (v : Option Json) : Bool :=
  match v with
  | some (.num y) => decide ((1900 : Rat) ≤ y) && decide (y ≤ ((currentYear + 1 : Int) : Rat))
  | _ => false

/-- Required-field test for `mileage`/`price`:
`typeof v === 'number' && !(v < 0)`. -/
def nonnegNumOk (v : Option Json) : Bool :=
  match v with
  | some (.num n) => decide ((0 : Rat) ≤ n)
  | _ => false

/-- Optional-field test (`co2`, `power_kw`, `power_hp`,
`number_of_doors`, `number_of_seats`): if the field is present
(`!== undefined`) it must be a number `≥ 0`; an absent field passes. -/
def optFieldOk (v : Option Json) : Bool :=
  match v with
  | none => true
  | some (.num n) => decide ((0 : Rat) ≤ n)
  | some _ => false

/-- The big required-fields condition of `validateListing` (the source
writes one `if` over the disjunction of the failures; this is the
conjunction of the successes). -/
def requiredOk (currentYear : Int) (l : Json) : Bool :=
  strFieldOk (getProp l "make") &&
  strFieldOk (getProp l "model") &&
  yearFieldOk currentYear (getProp l "year") &&
  nonnegNumOk (getProp l "mileage") &&
  nonnegNumOk (getProp l "price")

/-- The five optional-field `if` blocks of `validateListing`, combined:
the source returns `false` as soon as one present optional field fails,
which is equivalent to this conjunction. -/
def optionalOk (l : Json) : Bool :=
  optFieldOk (getProp l "co2") &&
  optFieldOk (getProp l "power_kw") &&
  optFieldOk (getProp l "power_hp") &&
  optFieldOk (getProp l "number_of_doors") &&
  optFieldOk (getProp l "number_of_seats")

/-- The `fuelTypeMap` lookup table of `validateListing` (keys are the
lower-cased fuel type). -/
def fuelTypeMap (s : String) : Option String :=
  if s = "gasoline" then some "Petrol"
  else if s = "gas" then some "Petrol"
  else if s = "petrol" then some "Petrol"
  else if s = "diesel" then some "Diesel"
  else if s = "electric" then some "Electric"
  else if s = "hybrid" then some "Hybrid"
  else if s = "plug-in hybrid" then some "Plug-in Hybrid"
  else if s = "plugin hybrid" then some "Plug-in Hybrid"
  else if s = "phev" then some "Plug-in Hybrid"
  else none

/-- Outcome of the body of `validateListing`'s `try` block: a normal
return (`keep`, plus the possibly fuel-type-rewritten listing — the
source mutates the listing in place), or a thrown exception. -/
inductive VRes where
  | ok (keep : Bool) (updated : Json) : VRes
  | exn : VRes

/-- The `try` body of `validateListing`, step by step:
`if (!listing || typeof listing !== 'object') return false;` then the
required-field check, then the optional-field checks, then fuel-type
normalization guarded by `if (listing.fuel_type)` (a truthiness test:
an absent or falsy — e.g. empty-string — fuel type skips the block
entirely and the listing is kept unchanged). Inside the block,
`listing.fuel_type.toLowerCase()` throws a `TypeError` when the truthy
fuel type is not a string (numbers, `true`, arrays and objects have no
callable `toLowerCase`), which is `VRes.exn`; on a string, a synonym-map
hit overwrites the field with the canonical value and a miss deletes the
field, and the function returns `true` either way. -/
def validateListingBody (currentYear : Int) (l : Json) : VRes :=
  if !(jsTruthy l) || jsTypeof l != "object" then .ok false l
  else if !(requiredOk currentYear l) then .ok false l
  else if !(optionalOk l) then .ok false l
  else
    match getProp l "fuel_type" with
    | none => .ok true l
    | some ft =>
      if jsTruthy ft then
        match ft with
        | .str s =>
          match fuelTypeMap (jsToLower s) with
          | some canon => .ok true (setProp l "fuel_type" (.str canon))
          | none => .ok true (delProp l "fuel_type")
        | _ => .exn
      else .ok true l

/-- Embeds `validateListing` with its surrounding `catch`: an exception inside
the body yields `false` (and the exception occurs before any mutation,
so the listing is unchanged). Returns the boolean verdict together with
the (possibly mutated) listing. -/
def validateListing (currentYear : Int) (l : Json) : Bool × Json :=
  match validateListingBody currentYear l with
  | .ok keep updated => (keep, updated)
  | .exn => (false, l)

/-- Embeds `parsedListings.filter(validateListing)`: each element is run
through the (mutating) validator, and the survivors are kept in their
mutated form. -/
def filterValidate (currentYear : Int) (ls : List Json) : List Json :=
  ls.filterMap (fun l =>
    match validateListing currentYear l with
    | (true, updated) => some updated
    | (false, _) => none)

/-- Spec-side predicate, following the specification's words for when
`isValid` returns `false`: "candidate not an object; `make`/`model` not
a non-empty string after trimming; `year` not a number or out of range
[1900, current-year+1]; `mileage` or `price` not a number ≥ 0; any
present optional numeric field not a number ≥ 0". Stated for comparison
with the embedded `validateListing`. -/
def specRejects (currentYear : Int) (l : Json) : Bool :=
  (match l with | .obj _ => false | _ => true) ||
  !(strFieldOk (getProp l "make")) ||
  !(strFieldOk (getProp l "model")) ||
  !(yearFieldOk currentYear (getProp l "year")) ||
  !(nonnegNumOk (getProp l "mileage")) ||
  !(nonnegNumOk (getProp l "price")) ||
  !(optionalOk l)

/-- The one rejection cause the specification's enumeration misses: a
`fuel_type` that is present and truthy but not a string, whose
`toLowerCase()` call throws (caught, yielding `false`). -/
def fuelExn (l : Json) : Bool :=
  match getProp l "fuel_type" with
  | some ft => jsTruthy ft && (match ft with | .str _ => false | _ => true)
  | none => false

/-- JavaScript `a || b` on a nullable string (`supabase` RPC data may be
`null`): the default is taken when the value is `null`/absent or the
empty string (both falsy). -/
def jsOrOpt (v : Option String) (dflt : String) : String :=
  match v with
  | none => dflt
  | some s => if s = "" then dflt else s

/-- JavaScript `a || b` on a plain string: the default is taken exactly
when the string is empty. -/
def jsOrStr (s dflt : String) : String :=
  if s = "" then dflt else s

/-- The adapters' guard `!apiKey?.trim()`: true when the key is
`null`/`undefined` (`none`) or blank after trimming. -/
def jsKeyMissing (apiKey : Option String) : Bool :=
  match apiKey with
  | none => true
  | some s => jsTrim s == ""

/-- An outbound remote call the pipeline would issue: a supabase RPC
(by name) or a provider network/SDK request. The embedding returns the
ordered trace of these alongside each result, so "fails before any
network call" is "the trace is empty". -/
inductive Event where
  | rpcCall (name : String) : Event
  | networkCall (p : Provider) : Event
deriving DecidableEq

/-- The outcome of each supabase RPC the Settings Accessor can issue
(`{data, error}`: an error message, or the returned value, which may be
`null`). Supplied by the environment. -/
structure RpcTable where
  get_ai_provider : Except String (Option String)
  get_gemini_apikey : Except String (Option String)
  get_gemini_prompt : Except String (Option String)
  get_deepseek_apikey : Except String (Option String)
  get_deepseek_prompt : Except String (Option String)
  get_openrouter_apikey : Except String (Option String)
  get_openrouter_prompt : Except String (Option String)
  get_openrouter_site_url : Except String (Option String)
  get_openrouter_site_name : Except String (Option String)

/-- The normalized settings bundle `getSettings` returns (the
`ai_provider` tag is the constructor). -/
inductive SettingsBundle where
  | gemini (apiKey prompt : String) : SettingsBundle
  | deepseek (apiKey prompt : String) : SettingsBundle
  | openrouter (apiKey prompt siteUrl siteName : String) : SettingsBundle
deriving DecidableEq

/-- Embeds `getSettings`: reads `get_ai_provider`, defaults a falsy tag to
`"gemini"` (`provider || 'gemini'`), then branches. Each branch fires
its RPCs together (`Promise.all`), so all of them appear in the trace
even when the first fails; errors are then checked in source order. Data
values are defaulted with `|| ''` (and, for OpenRouter site identity,
`|| window.location.origin` / `|| 'BananaDB'`). An unmatched tag raises
`Unknown AI provider`. The surrounding `try/catch` only logs and
rethrows (every thrown value here is already an `Error`). -/
def getSettings (rpc : RpcTable) (origin : String) :
    Except Err SettingsBundle × List Event :=
  match rpc.get_ai_provider with
  | .error e => (.error (.rpcError e), [.rpcCall "get_ai_provider"])
  | .ok d =>
    let tag := jsOrOpt d "gemini"
    if tag = "gemini" then
      let evs := [Event.rpcCall "get_ai_provider", Event.rpcCall "get_gemini_apikey",
        Event.rpcCall "get_gemini_prompt"]
      match rpc.get_gemini_apikey, rpc.get_gemini_prompt with
      | .error e, _ => (.error (.rpcError e), evs)
      | .ok _, .error e => (.error (.rpcError e), evs)
      | .ok k, .ok p => (.ok (.gemini (k.getD "") (p.getD "")), evs)
    else if tag = "deepseek" then
      let evs := [Event.rpcCall "get_ai_provider", Event.rpcCall "get_deepseek_apikey",
        Event.rpcCall "get_deepseek_prompt"]
      match rpc.get_deepseek_apikey, rpc.get_deepseek_prompt with
      | .error e, _ => (.error (.rpcError e), evs)
      | .ok _, .error e => (.error (.rpcError e), evs)
      | .ok k, .ok p => (.ok (.deepseek (k.getD "") (p.getD "")), evs)
    else if tag = "openrouter" then
      let evs := [Event.rpcCall "get_ai_provider", Event.rpcCall "get_openrouter_apikey",
        Event.rpcCall "get_openrouter_prompt", Event.rpcCall "get_openrouter_site_url",
        Event.rpcCall "get_openrouter_site_name"]
      match rpc.get_openrouter_apikey, rpc.get_openrouter_prompt,
          rpc.get_openrouter_site_url, rpc.get_openrouter_site_name with
      | .error e, _, _, _ => (.error (.rpcError e), evs)
      | .ok _, .error e, _, _ => (.error (.rpcError e), evs)
      | .ok _, .ok _, .error e, _ => (.error (.rpcError e), evs)
      | .ok _, .ok _, .ok _, .error e => (.error (.rpcError e), evs)
      | .ok k, .ok p, .ok u, .ok n =>
        (.ok (.openrouter (k.getD "") (p.getD "") (jsOrOpt u origin) (jsOrOpt n "BananaDB")), evs)
    else (.error (.unknownProvider tag), [.rpcCall "get_ai_provider"])

/-- Outcome of the Gemini SDK call (`generateContent` then
`response.text()`), as supplied by the environment: a thrown SDK
exception, or the response text — given here as its `JSON.parse`
outcome, since the normalizer is the only consumer of the text. Gemini
has no separate no-content check. -/
inductive GeminiOutcome where
  | sdkError (msg : String) : GeminiOutcome
  | text (parsed : Except String Json) : GeminiOutcome

/-- Outcome of a Deepseek/OpenRouter HTTP call, as supplied by the
environment: a non-ok response (carrying `error.error?.message` when
present), a response whose `choices[0]?.message?.content` is missing or
falsy, or the content text — given as its `JSON.parse` outcome. -/
inductive HttpOutcome where
  | transportError (msg : Option String) : HttpOutcome
  | noContent : HttpOutcome
  | content (parsed : Except String Json) : HttpOutcome

/-- Embeds `parseWithGemini`: rejects a missing/blank API key (before the SDK
is even initialized, so before any network traffic), then performs the
generate-content call, and hands the response text to
`parseAIResponse`. The `catch` only logs and rethrows. -/
def parseWithGemini (prompt rawData : String) (apiKey : Option String)
    (outcome : GeminiOutcome) : Except Err (List Json) × List Event :=
  if jsKeyMissing apiKey then (.error (.keyRequired .gemini), [])
  else
    match outcome with
    | .sdkError m => (.error (.sdkError m), [.networkCall .gemini])
    | .text parsed => (parseAIResponseE parsed, [.networkCall .gemini])

/-- Embeds `parseWithDeepseek`: rejects a missing/blank API key before the
`fetch`, surfaces a non-ok response as a provider error, a missing
`content` as a no-content error, and otherwise hands the content to
`parseAIResponse`. -/
def parseWithDeepseek (prompt rawData : String) (apiKey : Option String)
    (outcome : HttpOutcome) : Except Err (List Json) × List Event :=
  if jsKeyMissing apiKey then (.error (.keyRequired .deepseek), [])
  else
    match outcome with
    | .transportError m => (.error (.transportError .deepseek m), [.networkCall .deepseek])
    | .noContent => (.error (.noContent .deepseek), [.networkCall .deepseek])
    | .content parsed => (parseAIResponseE parsed, [.networkCall .deepseek])

/-- Embeds `parseWithOpenRouter`: same shape as Deepseek, plus the site-identity
headers (which do not affect control flow). -/
def parseWithOpenRouter (prompt rawData : String) (apiKey : Option String)
    (siteUrl siteName : String) (outcome : HttpOutcome) :
    Except Err (List Json) × List Event :=
  if jsKeyMissing apiKey then (.error (.keyRequired .openrouter), [])
  else
    match outcome with
    | .transportError m => (.error (.transportError .openrouter m), [.networkCall .openrouter])
    | .noContent => (.error (.noContent .openrouter), [.networkCall .openrouter])
    | .content parsed => (parseAIResponseE parsed, [.networkCall .openrouter])

/-- The environment of one `parseCarListing` invocation: the outcome of
every remote call it could issue, plus `window.location.origin` and the
current year. -/
structure Env where
  rpc : RpcTable
  geminiOutcome : GeminiOutcome
  deepseekOutcome : HttpOutcome
  openrouterOutcome : HttpOutcome
  origin : String
  currentYear : Int

/-- The provider `switch` of `parseCarListing`: checks the selected
provider's key and prompt for truthiness (`!settings.x_api_key` — an
empty string fails here, untrimmed), then invokes the matching adapter;
for OpenRouter the site identity gets a second `||` fallback at the
call site. The `default` branch of the source `switch` is Gemini, and
`getSettings` only produces the three tags. -/
def dispatchProvider (env : Env) (s : SettingsBundle) (rawData : String) :
    Except Err (List Json) × List Event :=
  match s with
  | .openrouter key prompt siteUrl siteName =>
    if key = "" then (.error (.keyRequired .openrouter), [])
    else if prompt = "" then (.error (.promptRequired .openrouter), [])
    else parseWithOpenRouter prompt rawData (some key)
      (jsOrStr siteUrl env.origin) (jsOrStr siteName "BananaDB") env.openrouterOutcome
  | .deepseek key prompt =>
    if key = "" then (.error (.keyRequired .deepseek), [])
    else if prompt = "" then (.error (.promptRequired .deepseek), [])
    else parseWithDeepseek prompt rawData (some key) env.deepseekOutcome
  | .gemini key prompt =>
    if key = "" then (.error (.keyRequired .gemini), [])
    else if prompt = "" then (.error (.promptRequired .gemini), [])
    else parseWithGemini prompt rawData (some key) env.geminiOutcome

/-- Embeds `parseCarListing`: blank input is rejected up front
(`"No data provided"`) before anything else runs; then the settings
load, the provider dispatch, and the validation filter, where an empty
survivor list raises `"No valid listings found in the response"`. The
outer `try/catch` only logs and rethrows. The second component is the
ordered trace of remote calls issued. -/
def parseCarListing (env : Env) (rawData : String) :
    Except Err (List Json) × List Event :=
  if jsTrim rawData == "" then (.error .noData, [])
  else
    match getSettings env.rpc env.origin with
    | (.error e, evs) => (.error e, evs)
    | (.ok s, evs) =>
      match dispatchProvider env s rawData with
      | (.error e, evs2) => (.error e, evs ++ evs2)
      | (.ok ls, evs2) =>
        let valid := filterValidate env.currentYear ls
        if valid.isEmpty then (.error .noValidListings, evs ++ evs2)
        else (.ok valid, evs ++ evs2)

/-- Sample RPC table: provider `gemini`, key `"k"`, prompt `"p"`. -/
def rpcGeminiOk : RpcTable where
  get_ai_provider := .ok (some "gemini")
  get_gemini_apikey := .ok (some "k")
  get_gemini_prompt := .ok (some "p")
  get_deepseek_apikey := .ok none
  get_deepseek_prompt := .ok none
  get_openrouter_apikey := .ok none
  get_openrouter_prompt := .ok none
  get_openrouter_site_url := .ok none
  get_openrouter_site_name := .ok none

/-- Sample listing with a blank `make` (from the specification's
testable-properties section). -/
def blankMakeListing : Json :=
  .obj [("make", .str ""), ("model", .str "X"), ("year", .num 2020),
    ("mileage", .num 0), ("price", .num 0)]

/-- Sample valid listing (from the specification's end-to-end example). -/
def corollaListing : Json :=
  .obj [("make", .str "Toyota"), ("model", .str "Corolla"), ("year", .num 2019),
    ("mileage", .num 40000), ("price", .num 12000)]

/-- Environment in which Gemini answers `{"listings":[<blank make>]}`. -/
def envNoValid : Env where
  rpc := rpcGeminiOk
  geminiOutcome := .text (.ok (.obj [("listings", .arr [blankMakeListing])]))
  deepseekOutcome := .noContent
  openrouterOutcome := .noContent
  origin := "https://example.test"
  currentYear := 2025

/-- Environment in which Gemini answers `{"listings":[<valid Corolla>]}`. -/
def envOk : Env where
  rpc := rpcGeminiOk
  geminiOutcome := .text (.ok (.obj [("listings", .arr [corollaListing])]))
  deepseekOutcome := .noContent
  openrouterOutcome := .noContent
  origin := "https://example.test"
  currentYear := 2025

/-- Sample listing whose only flaw is a `fuel_type` that is a (truthy)
number rather than a string: `toLowerCase()` throws on it. -/
def fuelNumListing : Json :=
  .obj [("make", .str "A"), ("model", .str "B"), ("year", .num 2000),
    ("mileage", .num 0), ("price", .num 0), ("fuel_type", .num 5)]

/-- Sample listing whose `fuel_type` is the empty string (present but
falsy). -/
def emptyFuelListing : Json :=
  .obj [("make", .str "A"), ("model", .str "B"), ("year", .num 2000),
    ("mileage", .num 0), ("price", .num 0), ("fuel_type", .str "")]

/-- Sample listing with the recognized fuel-type synonym `"gas"`. -/
def gasListing : Json :=
  .obj [("make", .str "A"), ("model", .str "B"), ("year", .num 2000),
    ("mileage", .num 0), ("price", .num 0), ("fuel_type", .str "gas")]

/-- RPC table whose stored provider tag is the empty string. -/
def rpcEmptyTag : RpcTable :=
  { rpcGeminiOk with get_ai_provider := .ok (some "") }

/-- RPC table whose stored provider tag is `"mistral"`. -/
def rpcMistral : RpcTable :=
  { rpcGeminiOk with get_ai_provider := .ok (some "mistral") }

/-- C1: for every value produced by a successful JSON parse, the
Response Normalizer's shape dispatch follows the spec's precedence: an
object with a `listings` field holding a list yields that list; a bare
list is returned as-is; any other (non-null) object yields the
one-element list containing it. -/
theorem C1_normalizer_dispatch (j : Json) :
    (∀ fs xs, j = Json.obj fs → fs.lookup "listings" = some (Json.arr xs) →
      parseAIResponseVal j = .ok xs) ∧
    (∀ xs, j = Json.arr xs → parseAIResponseVal j = .ok xs) ∧
    (∀ fs, j = Json.obj fs → (∀ xs, fs.lookup "listings" ≠ some (Json.arr xs)) →
      parseAIResponseVal j = .ok [Json.obj fs]) := by
  refine ⟨?_, ?_, ?_⟩
  · rintro fs xs rfl hl
    simp [parseAIResponseVal, getProp, hl]
  · rintro xs rfl
    simp [parseAIResponseVal, getProp]
  · rintro fs rfl hl
    cases hv : fs.lookup "listings" with
    | none => simp [parseAIResponseVal, getProp, hv]
    | some v =>
      cases v with
      | arr xs => exact absurd hv (hl xs)
      | null => simp [parseAIResponseVal, getProp, hv]
      | bool b => simp [parseAIResponseVal, getProp, hv]
      | num q => simp [parseAIResponseVal, getProp, hv]
      | str s => simp [parseAIResponseVal, getProp, hv]
      | obj gs => simp [parseAIResponseVal, getProp, hv]

/-- Witness for C1: all three dispatch shapes at concrete inputs. -/
theorem C1_witness :
    parseAIResponseVal (.obj [("listings", .arr [.num 1])]) = .ok [.num 1] ∧
    parseAIResponseVal (.arr [.num 2]) = .ok [.num 2] ∧
    parseAIResponseVal (.obj [("a", .num 3)]) = .ok [.obj [("a", .num 3)]] :=
  ⟨(C1_normalizer_dispatch (.obj [("listings", .arr [.num 1])])).1 _ [.num 1] rfl rfl,
   (C1_normalizer_dispatch (.arr [.num 2])).2.1 _ rfl,
   (C1_normalizer_dispatch (.obj [("a", .num 3)])).2.2 _ rfl
     (fun xs h => Option.noConfusion h)⟩

/-- C2 counterexample: on parsed `null`, the normalizer does fail, but
not with the invalid-response-format error: the property read
`parsed.listings` throws a `TypeError` first (rethrown wrapped), so the
`Invalid response format` throw is never reached for `null`. -/
theorem C2_counterexample :
    parseAIResponseVal Json.null = .error Err.nullListingsAccess ∧
    Err.nullListingsAccess ≠ Err.invalidFormat :=
  ⟨rfl, by decide⟩

/-- C2 as amended: for every scalar JSON value (number, string or
boolean) the normalizer fails with the invalid-response-format error;
for `null` it fails with the wrapped TypeError from reading `.listings`
on `null`; in all of these cases it fails and never returns a list. -/
theorem C2_amended_scalar_null (j : Json) :
    (isScalar j = true → parseAIResponseVal j = .error .invalidFormat) ∧
    (j = .null → parseAIResponseVal j = .error .nullListingsAccess) ∧
    ((isScalar j = true ∨ j = .null) → ∀ ls, parseAIResponseVal j ≠ .ok ls) := by
  cases j <;> simp [isScalar, parseAIResponseVal, getProp]

/-- Witness for C2 (amended) at concrete scalar and null inputs. -/
theorem C2_witness :
    parseAIResponseVal (.num 5) = .error .invalidFormat ∧
    parseAIResponseVal .null = .error .nullListingsAccess ∧
    ∀ ls, parseAIResponseVal (.bool true) ≠ .ok ls :=
  ⟨(C2_amended_scalar_null (.num 5)).1 rfl,
   (C2_amended_scalar_null .null).2.1 rfl,
   (C2_amended_scalar_null (.bool true)).2.2 (Or.inl rfl)⟩

/-- C10: an object whose `listings` field is present but not a list is
not an error and does not yield the `listings` value: the dispatch falls
through to the single-object case and returns the one-element list
containing the whole object (whether the field's value is truthy, like
`5`, or falsy, like `0` or `null`). -/
theorem C10_listings_not_list (fs : List (String × Json)) (v : Json)
    (hv : fs.lookup "listings" = some v) (hnl : ∀ xs, v ≠ Json.arr xs) :
    parseAIResponseVal (.obj fs) = .ok [.obj fs] := by
  simp only [parseAIResponseVal, getProp, hv]
  cases v <;> simp_all

/-- Witness for C10 at the concrete input `{"listings": 5}`. -/
theorem C10_witness :
    parseAIResponseVal (.obj [("listings", .num 5)]) = .ok [.obj [("listings", .num 5)]] :=
  C10_listings_not_list [("listings", .num 5)] (.num 5) rfl
    (fun xs h => Json.noConfusion h)

/-- Bool tautology used to regroup the spec's flat disjunction of field
failures into the source's two grouped checks. -/
theorem bool_spec_split (a b c d e f : Bool) :
    (!a || !b || !c || !d || !e || !f) = (!(a && b && c && d && e) || !f) := by
  cases a <;> cases b <;> cases c <;> cases d <;> cases e <;> cases f <;> rfl

/-- On an object, the spec's rejection disjunction is the disjunction of
the two grouped checks the source performs. -/
theorem specRejects_obj (cy : Int) (fs : List (String × Json)) :
    specRejects cy (.obj fs) =
      (!(requiredOk cy (.obj fs)) || !(optionalOk (.obj fs))) := by
  simp only [specRejects, requiredOk, Bool.false_or]
  exact bool_spec_split _ _ _ _ _ _

/-- On an object that passes the required and optional field checks,
the validator returns `false` exactly when the fuel-type normalization
throws (present, truthy, non-string fuel type). -/
theorem validate_fuel_phase (cy : Int) (fs : List (String × Json))
    (hreq : requiredOk cy (.obj fs) = true) (hopt : optionalOk (.obj fs) = true) :
    ((validateListing cy (.obj fs)).1 = false ↔ fuelExn (.obj fs) = true) := by
  simp only [validateListing, validateListingBody, jsTruthy, jsTypeof, hreq, hopt,
    Bool.not_true, Bool.false_or, bne_self_eq_false, if_false, Bool.or_self]
  cases hft : getProp (Json.obj fs) "fuel_type" with
  | none => simp [fuelExn, hft]
  | some ft =>
    cases ft with
    | str s =>
      by_cases hs : s = ""
      · subst hs; simp [fuelExn, hft, jsTruthy]
      · have ht : jsTruthy (Json.str s) = true := by simp [jsTruthy, hs]
        simp only [ht, if_true]
        cases hm : fuelTypeMap (jsToLower s) <;> simp [fuelExn, hft, ht, hm, hs]
    | bool b => cases b <;> simp [fuelExn, hft, jsTruthy]
    | num q =>
      by_cases hq : q = 0
      · subst hq; simp [fuelExn, hft, jsTruthy]
      · simp [fuelExn, hft, jsTruthy, hq]
    | null => simp [fuelExn, hft, jsTruthy]
    | arr xs => simp [fuelExn, hft, jsTruthy]
    | obj gs => simp [fuelExn, hft, jsTruthy]

/-- C3 counterexample: a listing whose required and optional fields all
pass but whose `fuel_type` is the number `5` is rejected
(`toLowerCase()` throws and the catch returns `false`), yet none of the
claim's enumerated rejection conditions holds. -/
theorem C3_counterexample :
    (validateListing 2025 fuelNumListing).1 = false ∧
    specRejects 2025 fuelNumListing = false :=
  ⟨rfl, rfl⟩

/-- C3 (amended): the validator returns `false` exactly when one of the
spec's enumerated conditions holds — candidate not an object,
`make`/`model` not a non-empty trimmed string, `year` not a number in
[1900, currentYear+1], `mileage`/`price` not a number ≥ 0, a present
optional numeric field not a number ≥ 0 — or additionally when the
`fuel_type` field is present, truthy and not a string (the thrown
`TypeError` is caught and yields `false`). -/
theorem C3_amended_reject_iff (cy : Int) (l : Json) :
    (validateListing cy l).1 = false ↔
      (specRejects cy l = true ∨ fuelExn l = true) := by
  cases l with
  | null => simp [validateListing, validateListingBody, jsTruthy, jsTypeof, specRejects]
  | bool b => simp [validateListing, validateListingBody, jsTruthy, jsTypeof, specRejects]
  | num q => simp [validateListing, validateListingBody, jsTruthy, jsTypeof, specRejects]
  | str s => simp [validateListing, validateListingBody, jsTruthy, jsTypeof, specRejects]
  | arr xs =>
    simp [validateListing, validateListingBody, jsTruthy, jsTypeof, specRejects,
      requiredOk, strFieldOk, getProp]
  | obj fs =>
    rw [specRejects_obj]
    by_cases hreq : requiredOk cy (Json.obj fs) = true
    · by_cases hopt : optionalOk (Json.obj fs) = true
      · rw [validate_fuel_phase cy fs hreq hopt]
        simp [hreq, hopt]
      · have hopt' : optionalOk (Json.obj fs) = false := by
          cases h : optionalOk (Json.obj fs) <;> simp_all
        simp [validateListing, validateListingBody, jsTruthy, jsTypeof, hreq, hopt']
    · have hreq' : requiredOk cy (Json.obj fs) = false := by
        cases h : requiredOk cy (Json.obj fs) <;> simp_all
      simp [validateListing, validateListingBody, jsTruthy, jsTypeof, hreq']

/-- Witness for C3 (amended): the added disjunct is exercised at the
numeric-fuel-type listing. -/
theorem C3_witness :
    (validateListing 2025 fuelNumListing).1 = false :=
  (C3_amended_reject_iff 2025 fuelNumListing).mpr (Or.inr rfl)

/-- C4 counterexample: the claim fails twice. A present but unrecognized
`fuel_type` that is the empty string is not removed (the truthiness
guard skips normalization and the field survives as `""`, with the
validator returning `true`); and a present `fuel_type` that is a truthy
non-string causes the validator to return `false`, not `true`. -/
theorem C4_counterexample :
    ((validateListing 2025 emptyFuelListing).1 = true ∧
      getProp (validateListing 2025 emptyFuelListing).2 "fuel_type" = some (.str "")) ∧
    (validateListing 2025 fuelNumListing).1 = false :=
  ⟨⟨rfl, rfl⟩, rfl⟩

/-- C4 (amended): for a candidate passing the required and optional
field checks whose `fuel_type` is present as a truthy (non-empty)
string: on a synonym-table hit the field is overwritten with the
canonical value, on a miss it is removed entirely, and validation
returns `true` in both cases. (A falsy `fuel_type` such as `""` is left
in place with the validator returning `true`; a truthy non-string
`fuel_type` makes it return `false`.) -/
theorem C4_amended_fuel_normalization (cy : Int) (l : Json) (s : String)
    (htr : jsTruthy l = true) (hty : jsTypeof l = "object")
    (hreq : requiredOk cy l = true) (hopt : optionalOk l = true)
    (hfuel : getProp l "fuel_type" = some (.str s)) (hne : s ≠ "") :
    (validateListing cy l).1 = true ∧
    ((∃ canon, fuelTypeMap (jsToLower s) = some canon ∧
        (validateListing cy l).2 = setProp l "fuel_type" (.str canon)) ∨
     (fuelTypeMap (jsToLower s) = none ∧
        (validateListing cy l).2 = delProp l "fuel_type")) := by
  have hs : jsTruthy (Json.str s) = true := by simp [jsTruthy, hne]
  simp only [validateListing, validateListingBody, htr, hty, hreq, hopt, hfuel,
    Bool.not_true, Bool.false_or, bne_self_eq_false, if_false, Bool.or_self, hs, if_true]
  cases hm : fuelTypeMap (jsToLower s) with
  | some c => exact ⟨rfl, Or.inl ⟨c, rfl, rfl⟩⟩
  | none => exact ⟨rfl, Or.inr ⟨rfl, rfl⟩⟩

/-- Witness for C4 (amended) at the synonym `"gas"`. -/
theorem C4_witness :
    (validateListing 2025 gasListing).1 = true ∧
    ((∃ canon, fuelTypeMap (jsToLower "gas") = some canon ∧
        (validateListing 2025 gasListing).2 = setProp gasListing "fuel_type" (.str canon)) ∨
     (fuelTypeMap (jsToLower "gas") = none ∧
        (validateListing 2025 gasListing).2 = delProp gasListing "fuel_type")) :=
  C4_amended_fuel_normalization 2025 gasListing "gas" rfl rfl rfl rfl rfl (by decide)

/-- C9: any exception thrown inside `validateListing`'s body is caught
and turned into the verdict `false` (with the listing unmutated — the
only throw site precedes the fuel-type mutation); nothing propagates to
the caller. -/
theorem C9_exception_caught (cy : Int) (l : Json)
    (h : validateListingBody cy l = .exn) :
    validateListing cy l = (false, l) := by
  simp [validateListing, h]

/-- Witness for C9 at a malformed candidate (numeric `fuel_type`),
where the body does throw. -/
theorem C9_witness :
    validateListing 2025 fuelNumListing = (false, fuelNumListing) :=
  C9_exception_caught 2025 fuelNumListing rfl

/-- C5: blank (empty or whitespace-only) input makes `parseCarListing`
fail with the no-data error, with an empty remote-call trace — before
the settings load and before any network call. -/
theorem C5_blank_input (env : Env) (rawData : String)
    (h : jsTrim rawData = "") :
    parseCarListing env rawData = (.error .noData, []) := by
  simp [parseCarListing, h]

/-- Witness for C5 at the whitespace-only input. -/
theorem C5_witness :
    parseCarListing envOk "   " = (.error .noData, []) :=
  C5_blank_input envOk "   " (by decide)

/-- C6: when the settings load and the selected adapter both succeed
but no candidate survives validation, `parseCarListing` fails with the
no-valid-listings error; and a successful return value is never the
empty list. -/
theorem C6_empty_after_filter :
    (∀ (env : Env) (rawData : String) (s : SettingsBundle)
        (evs evs2 : List Event) (ls : List Json),
      jsTrim rawData ≠ "" →
      getSettings env.rpc env.origin = (.ok s, evs) →
      dispatchProvider env s rawData = (.ok ls, evs2) →
      filterValidate env.currentYear ls = [] →
      (parseCarListing env rawData).1 = .error .noValidListings) ∧
    (∀ (env : Env) (rawData : String) (ls : List Json) (evs : List Event),
      parseCarListing env rawData = (.ok ls, evs) → ls ≠ []) := by
  constructor
  · intro env rawData s evs evs2 ls h1 h2 h3 h4
    have hb : (jsTrim rawData == "") = false := by
      simp [h1]
    simp [parseCarListing, hb, h2, h3, h4]
  · intro env rawData ls evs h
    unfold parseCarListing at h
    split at h
    · simp at h
    · rename_i hb
      rcases hset : getSettings env.rpc env.origin with ⟨res, evs1⟩
      rw [hset] at h
      cases res with
      | error e => simp at h
      | ok s =>
        dsimp only at h
        rcases hdis : dispatchProvider env s rawData with ⟨res2, evs2⟩
        rw [hdis] at h
        cases res2 with
        | error e => simp at h
        | ok ls2 =>
          simp only at h
          split at h
          · simp at h
          · rename_i hne
            simp only [Prod.mk.injEq, Except.ok.injEq] at h
            obtain ⟨hl, -⟩ := h
            subst hl
            intro hnil
            rw [hnil] at hne
            exact hne rfl

/-- Witness for C6: both parts at concrete environments — the
blank-make response yields the no-valid-listings error, and a
successful run returns a non-empty list. -/
theorem C6_witness :
    (parseCarListing envNoValid "2019 Toyota Corolla").1 = .error .noValidListings ∧
    ([corollaListing] ≠ ([] : List Json)) :=
  ⟨C6_empty_after_filter.1 envNoValid "2019 Toyota Corolla" (.gemini "k" "p")
      [.rpcCall "get_ai_provider", .rpcCall "get_gemini_apikey", .rpcCall "get_gemini_prompt"]
      [.networkCall .gemini] [blankMakeListing] (by decide) rfl rfl rfl,
   C6_empty_after_filter.2 envOk "2019 Toyota Corolla, 40000 km, $12000" [corollaListing]
      [.rpcCall "get_ai_provider", .rpcCall "get_gemini_apikey",
       .rpcCall "get_gemini_prompt", .networkCall .gemini] rfl⟩

/-- C7: every adapter rejects a `null`/`undefined` or blank-after-trim
API key with its provider-named credential error, with an empty trace —
before any network call. -/
theorem C7_adapters_key_guard (prompt rawData : String) (apiKey : Option String)
    (g : GeminiOutcome) (d o : HttpOutcome) (siteUrl siteName : String)
    (h : jsKeyMissing apiKey = true) :
    parseWithGemini prompt rawData apiKey g = (.error (.keyRequired .gemini), []) ∧
    parseWithDeepseek prompt rawData apiKey d = (.error (.keyRequired .deepseek), []) ∧
    parseWithOpenRouter prompt rawData apiKey siteUrl siteName o =
      (.error (.keyRequired .openrouter), []) := by
  simp [parseWithGemini, parseWithDeepseek, parseWithOpenRouter, h]

/-- Witness for C7 at a whitespace-only API key. -/
theorem C7_witness :
    parseWithGemini "p" "r" (some "  ") (.text (.error "x")) =
      (.error (.keyRequired .gemini), []) ∧
    parseWithDeepseek "p" "r" (some "  ") .noContent =
      (.error (.keyRequired .deepseek), []) ∧
    parseWithOpenRouter "p" "r" (some "  ") "u" "n" .noContent =
      (.error (.keyRequired .openrouter), []) :=
  C7_adapters_key_guard "p" "r" (some "  ") (.text (.error "x")) .noContent .noContent
    "u" "n" (by decide)

/-- C8 counterexample: the empty-string provider tag is not one of the
three recognized values, yet `getSettings` does not fail — the
`provider || 'gemini'` default silently maps every falsy tag to Gemini
and a settings bundle is returned. -/
theorem C8_counterexample :
    (getSettings rpcEmptyTag "https://example.test").1 = .ok (.gemini "k" "p") ∧
    ¬("" = "gemini" ∨ "" = "deepseek" ∨ "" = "openrouter") :=
  ⟨rfl, by decide⟩

/-- C8 (amended): every non-empty stored provider tag outside the three
recognized values makes `getSettings` fail with the unknown-provider
error (after only the provider read, issuing no further settings
reads); a `null` or empty tag instead falls back to the Gemini branch. -/
theorem C8_amended_unknown_provider (rpc : RpcTable) (origin : String) (tag : String)
    (hd : rpc.get_ai_provider = .ok (some tag)) (hne : tag ≠ "")
    (hg : tag ≠ "gemini") (hdk : tag ≠ "deepseek") (ho : tag ≠ "openrouter") :
    getSettings rpc origin = (.error (.unknownProvider tag), [.rpcCall "get_ai_provider"]) := by
  simp [getSettings, hd, jsOrOpt, hne, hg, hdk, ho]

/-- Witness for C8 (amended) at the tag `"mistral"`. -/
theorem C8_witness :
    getSettings rpcMistral "https://example.test" =
      (.error (.unknownProvider "mistral"), [.rpcCall "get_ai_provider"]) :=
  C8_amended_unknown_provider rpcMistral "https://example.test" "mistral" rfl
    (by decide) (by decide) (by decide) (by decide)

end BananaDB
